import Mathlib

/-!
Shallow embedding of `dash_app/app.py` from the basic-internet-monitoring
repository, together with proofs of the spec's testable properties.

Modelling conventions:
* timestamps are integers (seconds since an arbitrary epoch);
* every numeric probe field is an `Option ℚ`: `none` models pandas `NaN`
  ("missing"), produced by `pd.to_numeric(..., errors='coerce')`;
* the wall-clock `now` read inside `filter_data_by_date` is passed as an
  explicit argument, as the spec requires for testability;
* the SQLite read is modelled as an `Except`-valued input: `Except.error`
  models any exception raised inside the `try` block of `parse_log`.
-/

namespace DashApp

/-- A raw cell coming out of the SQLite query, before numeric coercion:
either an actual number, or text that `pd.to_numeric(errors='coerce')`
cannot parse, or SQL NULL. -/
inductive CellValue where
  | num (q : ℚ)
  | text (s : String)
  | null
deriving Repr, DecidableEq

/-- `pd.to_numeric(col, errors='coerce')` on a single cell: numbers pass
through, anything unparseable becomes missing (`NaN`, modelled `none`). -/
def toNumeric : CellValue → Option ℚ
  | .num q => some q
  | .text _ => none
  | .null => none

/-- One raw row of the `internet_status` table as returned by the SQL query
in `parse_log` (aliases applied: `status AS status_message`,
`success_percentage AS success`). -/
structure RawRow where
  timestamp : Int
  status_message : String
  success : CellValue
  avg_latency_ms : CellValue
  max_latency_ms : CellValue
  min_latency_ms : CellValue
  packet_loss : CellValue
deriving Repr, DecidableEq

/-- One normalized probe record, as produced by `parse_log`. -/
structure ProbeRecord where
  timestamp : Int
  status_message : String
  success : Option ℚ
  avg_latency_ms : Option ℚ
  max_latency_ms : Option ℚ
  min_latency_ms : Option ℚ
  packet_loss : Option ℚ
deriving Repr, DecidableEq

/-- Python's binary `min` on rationals (returns the second argument only
when it is strictly smaller, like `min(a, b)`). -/
def pymin (a b : ℚ) : ℚ := if b < a then b else a

/-- Python's binary `max` on rationals. -/
def maxQ (a b : ℚ) : ℚ := if a < b then b else a

/-- The largest element of a list of rationals, `none` for the empty list
(pandas `Series.max()` over the present values). -/
def listMaxQ : List ℚ → Option ℚ
  | [] => none
  | a :: l =>
    match listMaxQ l with
    | none => some a
    | some m => some (maxQ a m)

/-- pandas `Series.clip(upper=ub)` on one value: cap at `ub`, no lower
bound. -/
def clipUpper (ub : ℚ) (q : ℚ) : ℚ := pymin q ub

/-- The per-row normalization performed by `parse_log` (app.py lines 48-58):
coerce each numeric column, then clip the three latency columns at 500 and
`packet_loss` at 100. -/
def normalizeRow (r : RawRow) : ProbeRecord where
  timestamp := r.timestamp
  status_message := r.status_message
  success := toNumeric r.success
  avg_latency_ms := (toNumeric r.avg_latency_ms).map (clipUpper 500)
  max_latency_ms := (toNumeric r.max_latency_ms).map (clipUpper 500)
  min_latency_ms := (toNumeric r.min_latency_ms).map (clipUpper 500)
  packet_loss := (toNumeric r.packet_loss).map (clipUpper 100)

/-- `parse_log` (app.py lines 31-64): on a successful read, every row is
normalized; on any exception inside the `try` block (storage unreadable,
query error, whole-operation coercion failure, modelled by `Except.error`),
the error is logged and an empty DataFrame is returned — never raised. -/
def parse_log (db : Except String (List RawRow)) : List ProbeRecord :=
  match db with
  | .ok rows => rows.map normalizeRow
  | .error _ => []

/-- `filter_data_by_date` (app.py lines 67-87) with the wall-clock `now`
passed explicitly (the source reads `datetime.datetime.now()`; the spec
requires injecting it). Time unit: seconds, so 12 h = 43200 s and
7 d = 604800 s. -/
def filter_data_by_date (log_data : List ProbeRecord) (date_range : String)
    (now : Int) : List ProbeRecord :=
  if date_range = "last_12_hours" then
    log_data.filter (fun r => decide (now - 12 * 3600 ≤ r.timestamp))
  else if date_range = "last_24_hours" then
    log_data.filter (fun r => decide (now - 24 * 3600 ≤ r.timestamp))
  else if date_range = "last_48_hours" then
    log_data.filter (fun r => decide (now - 48 * 3600 ≤ r.timestamp))
  else if date_range = "last_7_days" then
    log_data.filter (fun r => decide (now - 7 * 86400 ≤ r.timestamp))
  else
    log_data

/-- Status-count predicate `df['success'] == 100` (pandas comparison with
`NaN` is false, so a missing value never counts). -/
def isFullUp (r : ProbeRecord) : Bool :=
  match r.success with
  | some q => decide (q = 100)
  | none => false

/-- Status-count predicate `(df['success'] > 0) & (df['success'] < 100)`. -/
def isPartUp (r : ProbeRecord) : Bool :=
  match r.success with
  | some q => decide (0 < q ∧ q < 100)
  | none => false

/-- Status-count predicate `df['success'] == 0`. -/
def isDown (r : ProbeRecord) : Bool :=
  match r.success with
  | some q => decide (q = 0)
  | none => false

/-- `df[df['success'] == 100].shape[0]` (app.py line 468). -/
def fullUpCount (rs : List ProbeRecord) : Nat := rs.countP isFullUp

/-- `df[(df['success'] > 0) & (df['success'] < 100)].shape[0]`
(app.py line 469). -/
def partUpCount (rs : List ProbeRecord) : Nat := rs.countP isPartUp

/-- `df[df['success'] == 0].shape[0]` (app.py line 470). -/
def downCount (rs : List ProbeRecord) : Nat := rs.countP isDown

/-- One plotly trace: a named series of (timestamp, value) points. -/
structure Trace where
  name : String
  xs : List Int
  ys : List (Option ℚ)
deriving Repr, DecidableEq

/-- A chart payload: its traces, the y-axis range (lower bound is always 0
in this app; `none` as upper bound models a `NaN` range produced by
arithmetic on an all-missing series), and any layout annotation texts. -/
structure Figure where
  data : List Trace
  yRange : ℚ × Option ℚ
  annots : List String
deriving Repr, DecidableEq

/-- `calculate_y_range` (app.py lines 116-127): `[0, absolute_max]` for an
empty series, else `[0, min(max * 1.1, absolute_max)]`; an all-missing
series has `NaN` max, which propagates (modelled as `none`). -/
def calculate_y_range (data_series : List (Option ℚ)) (absolute_max : ℚ) :
    ℚ × Option ℚ :=
  if data_series.isEmpty then (0, some absolute_max)
  else
    match listMaxQ (data_series.filterMap id) with
    | some m => (0, some (pymin (m * (11 / 10)) absolute_max))
    | none => (0, none)

/-- Column access `df[metric]` for the three latency checklist values. -/
def metricValue (r : ProbeRecord) (m : String) : Option ℚ :=
  if m = "avg_latency_ms" then r.avg_latency_ms
  else if m = "max_latency_ms" then r.max_latency_ms
  else if m = "min_latency_ms" then r.min_latency_ms
  else none

/-- `name_mapping.get(metric, metric)` (app.py lines 342-346). -/
def metricDisplayName (m : String) : String :=
  if m = "avg_latency_ms" then "Avg Latency (ms)"
  else if m = "max_latency_ms" then "Max Latency (ms)"
  else if m = "min_latency_ms" then "Min Latency (ms)"
  else m

/-- `df[selected_latency_metrics].max().max()` (app.py line 292): the
largest present value across all selected latency columns; `none` when
every selected cell is missing (pandas `NaN`). -/
def maxLatency (rs : List ProbeRecord) (sel : List String) : Option ℚ :=
  listMaxQ (sel.flatMap (fun m => rs.filterMap (fun r => metricValue r m)))

/-- Insert a record into an already-sorted list, keeping it sorted under
`le` (helper for `sortRecords`). -/
def insertLe (le : ProbeRecord → ProbeRecord → Bool) (a : ProbeRecord) :
    List ProbeRecord → List ProbeRecord
  | [] => [a]
  | b :: l => if le a b then a :: b :: l else b :: insertLe le a l

/-- `df.sort_values(...)` modelled as insertion sort under the given
comparison. -/
def sortRecords (le : ProbeRecord → ProbeRecord → Bool) :
    List ProbeRecord → List ProbeRecord
  | [] => []
  | a :: l => insertLe le a (sortRecords le l)

/-- The seven outputs of the `update_dashboard` callback. `none` for a
figure models the bare `{}` returned on the empty-input branch. -/
structure DashboardOutput where
  success_fig : Option Figure
  latency_fig : Option Figure
  packetloss_fig : Option Figure
  table_data : List ProbeRecord
  full_up_count : String
  part_up_count : String
  down_count : String
deriving Repr, DecidableEq

/-- `update_dashboard` (app.py lines 258-472): explicit empty-input branch,
then sort by timestamp, build the three figures (latency y-range
`[0, min(1.1 * max, 500)]` for a non-empty metric selection, placeholder
annotation and `[0, 500]` otherwise), the descending-sorted table, and the
three status-count strings. -/
def update_dashboard (filtered_data : List ProbeRecord)
    (selected_latency_metrics : List String) : DashboardOutput :=
  if filtered_data.isEmpty then
    ⟨none, none, none, [], "Fully Up: 0", "Partially Up: 0", "Down: 0"⟩
  else
    let df := sortRecords (fun a b => decide (a.timestamp ≤ b.timestamp))
      filtered_data
    let latencyYUpper : Option ℚ :=
      if selected_latency_metrics.isEmpty then some 500
      else (maxLatency df selected_latency_metrics).map
        (fun m => pymin (m * (11 / 10)) 500)
    let success_fig : Figure :=
      { data := [⟨"Success Rate (%)", df.map (·.timestamp), df.map (·.success)⟩],
        yRange := (0, some 100), annots := [] }
    let latency_fig : Figure :=
      if selected_latency_metrics.isEmpty then
        { data := [], yRange := (0, some 500),
          annots := ["Please select at least one latency metric to display."] }
      else
        { data := selected_latency_metrics.map (fun m =>
            ⟨metricDisplayName m, df.map (·.timestamp),
             df.map (fun r => metricValue r m)⟩),
          yRange := (0, latencyYUpper), annots := [] }
    let ploss := calculate_y_range (df.map (·.packet_loss)) 100
    let packetloss_fig : Figure :=
      { data := [⟨"Packet Loss (%)", df.map (·.timestamp), df.map (·.packet_loss)⟩],
        yRange := (0, ploss.2), annots := [] }
    let table := sortRecords (fun a b => decide (b.timestamp ≤ a.timestamp))
      filtered_data
    ⟨some success_fig, some latency_fig, some packetloss_fig, table,
     "Fully Up: " ++ toString (fullUpCount df),
     "Partially Up: " ++ toString (partUpCount df),
     "Down: " ++ toString (downCount df)⟩

/-- The six-column record shape cached by `get_filtered_data`
(`columns_to_cache`, app.py line 105): `status_message` is dropped. -/
structure ReducedRecord where
  timestamp : Int
  success : Option ℚ
  avg_latency_ms : Option ℚ
  max_latency_ms : Option ℚ
  min_latency_ms : Option ℚ
  packet_loss : Option ℚ
deriving Repr, DecidableEq

/-- `filtered_df[columns_to_cache]` on one row. -/
def reduceRecord (r : ProbeRecord) : ReducedRecord :=
  ⟨r.timestamp, r.success, r.avg_latency_ms, r.max_latency_ms,
   r.min_latency_ms, r.packet_loss⟩

/-- A memoization key: (db_path, date_range), the two arguments of
`get_filtered_data`. -/
abbrev CacheKey := String × String

/-- Modelled from the spec: the state of the Redis-backed `flask_caching`
cache (the library itself is not part of this repository). Each entry
holds the time it was written and the cached reduced record list; entries
expire lazily 300 seconds after being written. -/
structure CacheState where
  entries : List (CacheKey × (Int × List ReducedRecord))
deriving Repr, DecidableEq

/-- Look up a key in the cache state (first matching entry wins). -/
def CacheState.lookup (st : CacheState) (k : CacheKey) :
    Option (Int × List ReducedRecord) :=
  (st.entries.find? (fun e => e.1 = k)).map (fun e => e.2)

/-- Write a key into the cache state, shadowing any previous entry. -/
def CacheState.insert (st : CacheState) (k : CacheKey)
    (v : Int × List ReducedRecord) : CacheState :=
  ⟨(k, v) :: st.entries⟩

/-- The `try` block of `get_filtered_data` (app.py lines 95-107): read,
return `[]` if the parse is empty, filter, return `[]` if the filtered
frame is empty, else reduce to the six cached columns. -/
def getFilteredDataBody (db : Except String (List RawRow))
    (date_range : String) (now : Int) : List ReducedRecord :=
  let df := parse_log db
  if df.isEmpty then []
  else
    let filtered_df := filter_data_by_date df date_range now
    if filtered_df.isEmpty then []
    else filtered_df.map reduceRecord

/-- The result of one call to the memoized `get_filtered_data`: the value
returned to the caller (reduced records on the cached path, full-column
records on the error fallback), the cache state after the call, and how
many times `parse_log` was invoked on the successful paths. -/
inductive FetchOutcome where
  | reduced (records : List ReducedRecord)
  | full (records : List ProbeRecord)
deriving Repr, DecidableEq

structure FetchCall where
  outcome : FetchOutcome
  cache : CacheState
  readerCalls : Nat
deriving Repr, DecidableEq

/-- `get_filtered_data` (app.py lines 90-113) together with its
`@cache.memoize(timeout=300)` wrapper. Modelled from the spec: the
`flask_caching` memoize layer is not part of this repository; per the spec
it returns a fresh cached value on a hit without touching storage, and on
any error during the cached path (`cachedPathError`) the `except` branch
(app.py lines 108-113) recomputes read → filter → full-column records and
returns them with no cache write. -/
def get_filtered_data (st : CacheState) (now : Int)
    (db : Except String (List RawRow)) (db_path date_range : String)
    (cachedPathError : Bool) : FetchCall :=
  if cachedPathError then
    let df := parse_log db
    let filtered_df := filter_data_by_date df date_range now
    ⟨.full filtered_df, st, 1⟩
  else
    match st.lookup (db_path, date_range) with
    | some (t, v) =>
      if now - t < 300 then ⟨.reduced v, st, 0⟩
      else
        let rs := getFilteredDataBody db date_range now
        ⟨.reduced rs, st.insert (db_path, date_range) (now, rs), 1⟩
    | none =>
      let rs := getFilteredDataBody db date_range now
      ⟨.reduced rs, st.insert (db_path, date_range) (now, rs), 1⟩

/-- The outcome of the blocking `subprocess.run` call in
`trigger_power_cycle`: success with captured stdout, or a
`CalledProcessError` with captured stderr. -/
inductive SubprocessResult where
  | ok (stdout : String)
  | err (stderr : String)
deriving Repr, DecidableEq

/-- What one invocation of the power-cycle callback produced: the status
string returned to the page, and whether the external subprocess ran. -/
structure PowerCycleResult where
  status : String
  invoked : Bool
deriving Repr, DecidableEq

/-- `trigger_power_cycle` (app.py lines 479-486): run the subprocess only
for `n_clicks > 0`, reporting the completion time on success and the
captured stderr on failure; return the empty string (no subprocess) for
the initial zero-click invocation. `now` is the rendered
`datetime.datetime.now()` text. -/
def trigger_power_cycle (n_clicks : Nat) (now : String)
    (run : SubprocessResult) : PowerCycleResult :=
  if n_clicks > 0 then
    match run with
    | .ok _ => ⟨"Power cycle triggered at " ++ now, true⟩
    | .err e => ⟨"Power cycle failed: " ++ e, true⟩
  else ⟨"", false⟩

/-! ## Helper lemmas -/

theorem maxQ_comm (a b : ℚ) : maxQ a b = maxQ b a := by
  unfold maxQ
  split_ifs <;> linarith

theorem maxQ_left_comm (a b c : ℚ) : maxQ a (maxQ b c) = maxQ b (maxQ a c) := by
  unfold maxQ
  split_ifs <;> linarith

theorem listMaxQ_perm {l l' : List ℚ} (h : l.Perm l') :
    listMaxQ l = listMaxQ l' := by
  induction h with
  | nil => rfl
  | cons a _ ih => simp only [listMaxQ, ih]
  | swap a b l =>
    cases hl : listMaxQ l with
    | none => simp only [listMaxQ, hl, maxQ_comm]
    | some m => simp only [listMaxQ, hl, maxQ_left_comm]
  | trans _ _ ih1 ih2 => exact ih1.trans ih2

theorem insertLe_perm (le : ProbeRecord → ProbeRecord → Bool)
    (a : ProbeRecord) (l : List ProbeRecord) :
    (insertLe le a l).Perm (a :: l) := by
  induction l with
  | nil => exact List.Perm.refl _
  | cons b l ih =>
    unfold insertLe
    split
    · exact List.Perm.refl _
    · exact (ih.cons b).trans (List.Perm.swap a b l)

theorem sortRecords_perm (le : ProbeRecord → ProbeRecord → Bool)
    (l : List ProbeRecord) : (sortRecords le l).Perm l := by
  induction l with
  | nil => exact List.Perm.refl _
  | cons a l ih => exact (insertLe_perm le a _).trans (ih.cons a)

theorem maxLatency_perm {rs rs' : List ProbeRecord} (sel : List String)
    (h : rs.Perm rs') : maxLatency rs sel = maxLatency rs' sel := by
  unfold maxLatency
  refine listMaxQ_perm ?_
  induction sel with
  | nil => exact List.Perm.refl _
  | cons m sel ih =>
    simp only [List.flatMap_cons]
    exact (h.filterMap _).append ih

theorem maxLatency_sortRecords (le : ProbeRecord → ProbeRecord → Bool)
    (rs : List ProbeRecord) (sel : List String) :
    maxLatency (sortRecords le rs) sel = maxLatency rs sel :=
  maxLatency_perm sel (sortRecords_perm le rs)

theorem status_counts_cons (a : ProbeRecord) (l : List ProbeRecord) :
    fullUpCount (a :: l) + partUpCount (a :: l) + downCount (a :: l) =
      (fullUpCount l + partUpCount l + downCount l) +
        ((if isFullUp a then 1 else 0) + (if isPartUp a then 1 else 0) +
          (if isDown a then 1 else 0)) := by
  simp only [fullUpCount, partUpCount, downCount, List.countP_cons]
  ring

theorem status_flags_le_one (r : ProbeRecord) :
    (if isFullUp r then 1 else 0) + (if isPartUp r then 1 else 0) +
      (if isDown r then 1 else 0) ≤ 1 := by
  cases hr : r.success with
  | none => simp [isFullUp, isPartUp, isDown, hr]
  | some q =>
    simp only [isFullUp, isPartUp, isDown, hr, decide_eq_true_eq]
    split_ifs <;> first | omega | linarith

theorem status_flags_eq_one {r : ProbeRecord} {q : ℚ} (h : r.success = some q)
    (h0 : 0 ≤ q) (h1 : q ≤ 100) :
    (if isFullUp r then 1 else 0) + (if isPartUp r then 1 else 0) +
      (if isDown r then 1 else 0) = 1 := by
  simp only [isFullUp, isPartUp, isDown, h, decide_eq_true_eq]
  rcases eq_or_lt_of_le h0 with h0e | h0l
  · rw [if_neg (by rw [← h0e]; norm_num), if_neg (by rw [← h0e]; intro hc; linarith [hc.1]),
      if_pos h0e.symm]
  · rcases eq_or_lt_of_le h1 with h1e | h1l
    · rw [if_pos h1e, if_neg (by intro hc; linarith [hc.2]), if_neg (by linarith)]
    · rw [if_neg (by linarith), if_pos ⟨h0l, h1l⟩, if_neg (by linarith)]

/-! ## Sample data used by witnesses and counterexamples -/

/-- A probe record carrying only a success value (all other numeric fields
missing), for exercising the status counts. -/
def exRec (ts : Int) (q : ℚ) : ProbeRecord := ⟨ts, "", some q, none, none, none, none⟩

/-- A raw row with an average latency of 600 ms (above the 500 ms cap),
taken from the spec's worked example. -/
def exRow600 : RawRow := ⟨32400, "up", .num 100, .num 600, .num 600, .num 600, .num 0⟩

/-- A raw row mixing an over-cap average latency (600), an in-range
maximum latency (450), a negative minimum latency (-5) and an over-cap
packet loss (150). -/
def exRowMix : RawRow := ⟨0, "up", .num 50, .num 600, .num 450, .num (-5), .num 150⟩

/-! ## Claim theorems -/

/-- C2: for window selector "last_12_hours" with injected now = T, the
time-window filter keeps exactly the records whose timestamp is at least
T minus 12 hours: a record is in the output iff it is an input record with
`timestamp ≥ T − 12h`. -/
theorem filter_last12_membership (rs : List ProbeRecord) (T : Int)
    (r : ProbeRecord) :
    r ∈ filter_data_by_date rs "last_12_hours" T ↔
      r ∈ rs ∧ T - 12 * 3600 ≤ r.timestamp := by
  simp only [filter_data_by_date, if_pos rfl]
  simp [List.mem_filter]

/-- C3: applying the time-window filter with the "all_time" selector, or
with any selector other than the four recognized bounded ones, returns the
input list unchanged; in particular the output length equals the input
length. -/
theorem filter_unrecognized_identity (rs : List ProbeRecord) (now : Int)
    (w : String)
    (hw : w = "all_time" ∨
      (¬w = "last_12_hours" ∧ ¬w = "last_24_hours" ∧ ¬w = "last_48_hours" ∧
        ¬w = "last_7_days")) :
    filter_data_by_date rs w now = rs ∧
      (filter_data_by_date rs w now).length = rs.length := by
  have hid : filter_data_by_date rs w now = rs := by
    rcases hw with rfl | ⟨h1, h2, h3, h4⟩
    · simp only [filter_data_by_date]
      rw [if_neg (by decide), if_neg (by decide), if_neg (by decide),
        if_neg (by decide)]
    · simp only [filter_data_by_date]
      rw [if_neg h1, if_neg h2, if_neg h3, if_neg h4]
  exact ⟨hid, by rw [hid]⟩

/-- Witness for C3 at the concrete selector "all_time" on a one-record
list. -/
theorem filter_unrecognized_identity_witness :
    filter_data_by_date [exRec 0 50] "all_time" 5 = [exRec 0 50] ∧
      (filter_data_by_date [exRec 0 50] "all_time" 5).length =
        [exRec 0 50].length :=
  filter_unrecognized_identity [exRec 0 50] 5 "all_time" (Or.inl rfl)

/-- C4: normalization in `parse_log` clamps each numeric latency value
above 500 to exactly 500, leaves values at most 500 (including negative
ones) unchanged, and likewise clamps any `packet_loss` value above 100 to
exactly 100. -/
theorem parse_log_clamping (r : RawRow) (q : ℚ) :
    (toNumeric r.avg_latency_ms = some q →
      (500 < q → (normalizeRow r).avg_latency_ms = some 500) ∧
      (q ≤ 500 → (normalizeRow r).avg_latency_ms = some q)) ∧
    (toNumeric r.max_latency_ms = some q →
      (500 < q → (normalizeRow r).max_latency_ms = some 500) ∧
      (q ≤ 500 → (normalizeRow r).max_latency_ms = some q)) ∧
    (toNumeric r.min_latency_ms = some q →
      (500 < q → (normalizeRow r).min_latency_ms = some 500) ∧
      (q ≤ 500 → (normalizeRow r).min_latency_ms = some q)) ∧
    (toNumeric r.packet_loss = some q →
      (100 < q → (normalizeRow r).packet_loss = some 100) ∧
      (q ≤ 100 → (normalizeRow r).packet_loss = some q)) := by
  have hpos : ∀ {ub q : ℚ}, ub < q → clipUpper ub q = ub := by
    intro ub q h
    simp only [clipUpper, pymin, if_pos h]
  have hle : ∀ {ub q : ℚ}, q ≤ ub → clipUpper ub q = q := by
    intro ub q h
    simp only [clipUpper, pymin, if_neg (not_lt.mpr h)]
  refine ⟨fun h => ⟨fun hq => ?_, fun hq => ?_⟩, fun h => ⟨fun hq => ?_, fun hq => ?_⟩,
    fun h => ⟨fun hq => ?_, fun hq => ?_⟩, fun h => ⟨fun hq => ?_, fun hq => ?_⟩⟩ <;>
    simp [normalizeRow, h] <;> first | rw [hpos hq] | rw [hle hq]

/-- Witness for C4: the mixed sample row normalizes to avg 500 (clamped
from 600), min -5 (negative, untouched) and packet loss 100 (clamped from
150). -/
theorem parse_log_clamping_witness :
    (normalizeRow exRowMix).avg_latency_ms = some 500 ∧
    (normalizeRow exRowMix).min_latency_ms = some (-5) ∧
    (normalizeRow exRowMix).packet_loss = some 100 :=
  ⟨((parse_log_clamping exRowMix 600).1 rfl).1 (by norm_num),
   ((parse_log_clamping exRowMix (-5)).2.2.1 rfl).2 (by norm_num),
   ((parse_log_clamping exRowMix 150).2.2.2 rfl).1 (by norm_num)⟩

/-- C8: the record store reader returns every row normalized on a
successful read and an empty result on any failure; being a total function
into a plain record list, it never raises to the caller, so a failed read
is indistinguishable from an empty table. -/
theorem parse_log_error_contract (rows : List RawRow) (e : String) :
    parse_log (Except.ok rows) = rows.map normalizeRow ∧
      parse_log (Except.error e) = [] :=
  ⟨rfl, rfl⟩

/-- C10: the power-cycle callback returns the empty status string and does
not run the subprocess for a zero click count, and runs it exactly when
the click count is strictly positive. -/
theorem power_cycle_zero_clicks (now : String) (res : SubprocessResult)
    (n : Nat) :
    trigger_power_cycle 0 now res = ⟨"", false⟩ ∧
      (0 < n → (trigger_power_cycle n now res).invoked = true) := by
  constructor
  · rfl
  · intro hn
    unfold trigger_power_cycle
    rw [if_pos hn]
    cases res <;> rfl

/-- Witness for C10 at one click with a successful subprocess run. -/
theorem power_cycle_zero_clicks_witness :
    (trigger_power_cycle 1 "2026-01-01" (SubprocessResult.ok "done")).invoked
      = true :=
  (power_cycle_zero_clicks "2026-01-01" (SubprocessResult.ok "done") 1).2
    (by decide)

/-- C5 counterexample: a one-record dataset with a present success value
of 150 has no missing success value, yet the three status counts sum to 0,
not to the total record count — refuting the claimed equality condition. -/
theorem status_counts_equality_cex :
    (∀ r ∈ [exRec 0 150], r.success.isSome = true) ∧
      fullUpCount [exRec 0 150] + partUpCount [exRec 0 150] +
        downCount [exRec 0 150] ≠ [exRec 0 150].length := by
  decide

/-- C5 (amended): the three status-count predicates are pairwise disjoint,
their counts sum to at most the record count, equality holds whenever
every record has a present success value lying in [0, 100], and the
three-record example with success 100, 50, 0 yields counts 1, 1, 1. -/
theorem status_counts_partition (rs : List ProbeRecord) :
    (∀ r : ProbeRecord,
      ¬(isFullUp r = true ∧ isPartUp r = true) ∧
      ¬(isFullUp r = true ∧ isDown r = true) ∧
      ¬(isPartUp r = true ∧ isDown r = true)) ∧
    fullUpCount rs + partUpCount rs + downCount rs ≤ rs.length ∧
    ((∀ r ∈ rs, ∃ q, r.success = some q ∧ 0 ≤ q ∧ q ≤ 100) →
      fullUpCount rs + partUpCount rs + downCount rs = rs.length) ∧
    (fullUpCount [exRec 32400 100, exRec 36000 50, exRec 39600 0] = 1 ∧
     partUpCount [exRec 32400 100, exRec 36000 50, exRec 39600 0] = 1 ∧
     downCount [exRec 32400 100, exRec 36000 50, exRec 39600 0] = 1) := by
  refine ⟨?_, ?_, ?_, by decide⟩
  · intro r
    cases hr : r.success with
    | none => simp [isFullUp, isPartUp, isDown, hr]
    | some q =>
      simp only [isFullUp, isPartUp, isDown, hr, decide_eq_true_eq]
      refine ⟨?_, ?_, ?_⟩ <;> rintro ⟨ha, hb⟩ <;>
        first
          | (exact absurd hb (by rw [ha]; rintro ⟨h1, h2⟩; linarith))
          | (rw [hb] at ha; linarith)
  · induction rs with
    | nil => simp [fullUpCount, partUpCount, downCount]
    | cons a l ih =>
      rw [status_counts_cons]
      have := status_flags_le_one a
      simp only [List.length_cons]
      omega
  · intro hall
    induction rs with
    | nil => simp [fullUpCount, partUpCount, downCount]
    | cons a l ih =>
      obtain ⟨q, hq, h0, h1⟩ := hall a (List.mem_cons_self a l)
      rw [status_counts_cons, status_flags_eq_one hq h0 h1,
        ih (fun r hr => hall r (List.mem_cons_of_mem a hr))]
      simp [Nat.add_comm]

/-- Witness for C5: on the three-record example every success value is
present and in range, so the counts sum to the record count. -/
theorem status_counts_partition_witness :
    fullUpCount [exRec 32400 100, exRec 36000 50, exRec 39600 0] +
      partUpCount [exRec 32400 100, exRec 36000 50, exRec 39600 0] +
      downCount [exRec 32400 100, exRec 36000 50, exRec 39600 0] =
      [exRec 32400 100, exRec 36000 50, exRec 39600 0].length :=
  (status_counts_partition _).2.2.1 (by
    intro r hr
    simp only [List.mem_cons, List.not_mem_nil, or_false] at hr
    rcases hr with rfl | rfl | rfl
    · exact ⟨100, rfl, by norm_num⟩
    · exact ⟨50, rfl, by norm_num⟩
    · exact ⟨0, rfl, by norm_num⟩)

/-- C6: on the empty input dataset, the dashboard update takes its explicit
empty-input branch and returns all three charts as the bare empty payload,
an empty table, and all three status counts rendered as zero. -/
theorem update_dashboard_empty (sel : List String) :
    update_dashboard [] sel =
      ⟨none, none, none, [], "Fully Up: 0", "Partially Up: 0", "Down: 0"⟩ :=
  rfl

/-- C7: for a non-empty dataset, (a) with a non-empty metric selection
whose largest selected value is m, the latency chart's y-range is
[0, min(1.1 * m, 500)]; (b) with an empty selection the latency chart has
no data series, carries the placeholder annotation asking the user to
select at least one metric, and has y-range [0, 500]; (c) the worked
example — a single record with avg latency input 600 (normalized to 500)
and only avg selected — yields y-range [0, 500]. -/
theorem latency_chart_y_range (rs : List ProbeRecord) (sel : List String)
    (m : ℚ) (hrs : rs ≠ []) :
    (sel ≠ [] → maxLatency rs sel = some m →
      ((update_dashboard rs sel).latency_fig).map Figure.yRange =
        some (0, some (pymin (m * (11 / 10)) 500))) ∧
    (sel = [] →
      (update_dashboard rs sel).latency_fig =
        some ⟨[], (0, some 500),
          ["Please select at least one latency metric to display."]⟩) ∧
    ((update_dashboard (parse_log (Except.ok [exRow600]))
        ["avg_latency_ms"]).latency_fig).map Figure.yRange =
      some (0, some 500) := by
  have h1 : rs.isEmpty = false := by simpa [List.isEmpty_iff] using hrs
  refine ⟨fun hsel hmax => ?_, fun hsel => ?_, ?_⟩
  · have h2 : sel.isEmpty = false := by simpa [List.isEmpty_iff] using hsel
    simp [update_dashboard, h1, h2, maxLatency_sortRecords, hmax]
  · subst hsel
    simp [update_dashboard, h1]
  · norm_num [exRow600, update_dashboard, parse_log, normalizeRow, toNumeric,
      clipUpper, pymin, sortRecords, insertLe, maxLatency, listMaxQ, maxQ,
      metricValue, metricDisplayName, calculate_y_range]

/-- Witness for C7 on the worked example: applying the theorem with
m = 500 (the clamped maximum) gives y-range [0, min(500 * 1.1, 500)]. -/
theorem latency_chart_y_range_witness :
    ((update_dashboard (parse_log (Except.ok [exRow600]))
        ["avg_latency_ms"]).latency_fig).map Figure.yRange =
      some (0, some (pymin ((500 : ℚ) * (11 / 10)) 500)) :=
  (latency_chart_y_range (parse_log (Except.ok [exRow600]))
      ["avg_latency_ms"] 500 (by decide)).1 (by decide) (by decide)

/-- C1 counterexample: with a cache entry for the key written at time 0, a
first request at time 250 is a fresh hit (no reader call), and a second
identical request at time 450 — only 200 seconds later, less than 300 —
finds the entry expired and re-invokes the storage reader. -/
theorem cache_hit_cex :
    (450 : Int) - 250 < 300 ∧
    (get_filtered_data ⟨[(("logs/internet_status.db", "last_12_hours"), (0, []))]⟩
        250 (Except.ok []) "logs/internet_status.db" "last_12_hours"
        false).readerCalls = 0 ∧
    (get_filtered_data
        (get_filtered_data
          ⟨[(("logs/internet_status.db", "last_12_hours"), (0, []))]⟩
          250 (Except.ok []) "logs/internet_status.db" "last_12_hours"
          false).cache
        450 (Except.ok []) "logs/internet_status.db" "last_12_hours"
        false).readerCalls = 1 := by
  decide

/-- C1 (amended): when the first of two identical (store, window) requests
is a cache miss — so it computes and stores the reduced record list — a
second identical request less than 300 seconds later does not re-invoke
the storage reader: it returns the previously computed reduced record list
and leaves the cache untouched. -/
theorem cache_hit_within_timeout (st : CacheState) (t1 t2 : Int)
    (db1 db2 : Except String (List RawRow)) (p w : String)
    (hmiss : st.lookup (p, w) = none) (hfresh : t2 - t1 < 300) :
    (get_filtered_data (get_filtered_data st t1 db1 p w false).cache t2 db2
        p w false).readerCalls = 0 ∧
    (get_filtered_data (get_filtered_data st t1 db1 p w false).cache t2 db2
        p w false).outcome = (get_filtered_data st t1 db1 p w false).outcome ∧
    (get_filtered_data (get_filtered_data st t1 db1 p w false).cache t2 db2
        p w false).cache = (get_filtered_data st t1 db1 p w false).cache := by
  have hcall1 : get_filtered_data st t1 db1 p w false =
      ⟨.reduced (getFilteredDataBody db1 w t1),
        st.insert (p, w) (t1, getFilteredDataBody db1 w t1), 1⟩ := by
    simp [get_filtered_data, hmiss]
  have hlook : (st.insert (p, w) (t1, getFilteredDataBody db1 w t1)).lookup
      (p, w) = some (t1, getFilteredDataBody db1 w t1) := by
    simp [CacheState.lookup, CacheState.insert, List.find?]
  rw [hcall1]
  simp [get_filtered_data, hlook, hfresh]

/-- Witness for C1: a miss on the empty cache at time 0 followed by the
same request at time 100 reads storage zero times the second time. -/
theorem cache_hit_within_timeout_witness :
    (get_filtered_data
        (get_filtered_data ⟨[]⟩ 0 (Except.ok []) "logs/internet_status.db"
          "last_12_hours" false).cache
        100 (Except.ok []) "logs/internet_status.db" "last_12_hours"
        false).readerCalls = 0 :=
  (cache_hit_within_timeout ⟨[]⟩ 0 100 (Except.ok []) (Except.ok [])
    "logs/internet_status.db" "last_12_hours" rfl (by decide)).1

/-- C9: when an error occurs during the cached-path computation, the fetch
operation does not propagate it: it returns the uncached fallback — read
storage, filter by window, full-column record list — and performs no cache
write (the cache state is returned unchanged). -/
theorem cached_path_error_fallback (st : CacheState) (now : Int)
    (db : Except String (List RawRow)) (p w : String) :
    get_filtered_data st now db p w true =
      ⟨.full (filter_data_by_date (parse_log db) w now), st, 1⟩ :=
  rfl

end DashApp
